import Mathlib

/-!
Verification development for the SpeakTogether streaming caption pipeline.

The definitions below are a shallow embedding of the JavaScript source:
  * `frontend/src/main.js` — the Electron main process: caption broadcast
    (`updateCaptionText`) and the overlay window lifecycle
    (`toggleCaptionOverlay`, `createCaptionWindow`, `showCaptionWindow`,
    `hideCaptionWindow`, `destroyCaptionWindow`).
  * `frontend/src/caption-preload.js` (renderer portion) — the WebSocket
    `onmessage` reconciler for `transcription` / `transcription_result`
    messages, the per-category throttle, and `updateCaptionOverlay`.
  * the backend audio segmenter buffer policy (modelled from the spec,
    see `ingest` below).

JavaScript numbers are modelled as `Rat` (for confidences) and `Int`
(for `Date.now()` timestamps); `undefined` fields as `Option`;
JS truthiness of strings (`""` is falsy) and booleans is modelled by
`jsOrStr` / `jsOrBool`.  Thrown exceptions are modelled with `Except`.
-/

namespace SpeakTogether

/-- JS `a || b` for an optional string field `a` with fallback `b`:
the empty string is falsy, so it falls through to the fallback. -/
def jsOrStr (a : Option String) (b : String) : String :=
  match a with
  | some s => if s = "" then b else s
  | none => b

/-- JS `a || b` for an optional boolean field `a` with fallback `b`:
`false` (and a missing field) is falsy and falls through to `b`. -/
def jsOrBool (a : Option Bool) (b : Bool) : Bool :=
  match a with
  | some x => if x then x else b
  | none => b

/-- The (possibly partial) caption payload handed to the broadcast layer.
Field names follow the wire payloads accepted by `updateCaptionText` in
`main.js`: both `translation`/`translated` and the camelCase/snake_case
language aliases may occur; any field may be absent (`none`). -/
structure CaptionData where
  original : Option String
  text : Option String
  translation : Option String
  translated : Option String
  confidence : Option Rat
  sourceLanguage : Option String
  source_language : Option String
  targetLanguage : Option String
  target_language : Option String
  fromTranscription : Option Bool
  isRealTime : Option Bool
  timestamp : Option Int
  language : Option String
deriving DecidableEq, Repr

/-- The canonical `bilingual_data` record built by `updateCaptionText`
in `main.js` and sent to the overlay window. -/
structure CaptionState where
  original : String
  translation : String
  confidence : Rat
  sourceLanguage : String
  targetLanguage : String
  fromTranscription : Bool
  isRealTime : Bool
  timestamp : Int
deriving DecidableEq, Repr

/-- The `bilingual_data` construction of `updateCaptionText`
(`main.js`, lines 514–532), field by field:
`original: data.original || data.text || ''`,
`translation: data.translation || data.translated || ''`,
`confidence: typeof data.confidence === 'number' ? data.confidence : 0`,
`sourceLanguage: data.sourceLanguage || data.source_language || 'auto'`,
`targetLanguage: data.targetLanguage || data.target_language || 'en'`,
`fromTranscription: data.fromTranscription || true`,
`isRealTime: data.isRealTime || true`,
`timestamp: Date.now()` (the current time `now`). -/
def bilingualData (now : Int) (data : CaptionData) : CaptionState where
  original := jsOrStr data.original (jsOrStr data.text "")
  translation := jsOrStr data.translation (jsOrStr data.translated "")
  confidence := data.confidence.getD 0
  sourceLanguage := jsOrStr data.sourceLanguage (jsOrStr data.source_language "auto")
  targetLanguage := jsOrStr data.targetLanguage (jsOrStr data.target_language "en")
  fromTranscription := jsOrBool data.fromTranscription true
  isRealTime := jsOrBool data.isRealTime true
  timestamp := now

/-- The caption overlay `BrowserWindow` resource (its visibility). -/
structure CapWin where
  visible : Bool
deriving DecidableEq, Repr

/-- Mutable fields of the Electron main process relevant to the caption
overlay: `this.captionWindow` (a live handle or `null`),
`this.captionEnabled`, and the last caption payload delivered to the
overlay window via `webContents.send('update-live-caption', …)`
(`none` while nothing has been delivered). -/
structure MainState where
  captionWindow : Option CapWin
  captionEnabled : Bool
  deliveredCaption : Option CaptionState
deriving DecidableEq, Repr

/-- `updateCaptionText(data)` from `main.js` (lines 495–549): if there is
no caption window (or it is destroyed, modelled as `none`) it returns at
once without buffering anything; otherwise it builds `bilingual_data`
and sends it to the overlay window. -/
def updateCaptionText (now : Int) (data : CaptionData) (s : MainState) : MainState :=
  match s.captionWindow with
  | none => s
  | some _ => { s with deliveredCaption := some (bilingualData now data) }

/-- A JavaScript `Error` as observed at the `toggleCaptionOverlay`
boundary: its `message` and `stack`. -/
structure Err where
  message : String
  stack : String
deriving DecidableEq, Repr

/-- Which platform window operations throw in a given run.  Each flag
makes the corresponding Electron call (`new BrowserWindow`/`loadFile`,
`show`, `hide`, `close`) raise an exception when invoked. -/
structure FailCfg where
  ctorFails : Bool
  loadFails : Bool
  showFails : Bool
  hideFails : Bool
  closeFails : Bool
deriving DecidableEq, Repr

/-- `showCaptionWindow()` (`main.js`, lines 414–444): returns `false`
without touching anything when no window exists; otherwise tries to
show the window, swallowing any platform exception (returning `false`). -/
def showCaptionWindow (cfg : FailCfg) (s : MainState) : MainState × Bool :=
  match s.captionWindow with
  | none => (s, false)
  | some w =>
      if cfg.showFails then (s, false)
      else ({ s with captionWindow := some { w with visible := true } }, true)

/-- `hideCaptionWindow()` (`main.js`, lines 446–466): returns `false`
when no window exists; otherwise tries to hide, swallowing any
platform exception. -/
def hideCaptionWindow (cfg : FailCfg) (s : MainState) : MainState × Bool :=
  match s.captionWindow with
  | none => (s, false)
  | some w =>
      if cfg.hideFails then (s, false)
      else ({ s with captionWindow := some { w with visible := false } }, true)

/-- `createCaptionWindow()` (`main.js`, lines 259–412).  If a window
already exists it just shows it.  Otherwise it allocates the window and
loads the caption page; on failure its `catch` block attempts a
best-effort `close` (itself swallowed on failure), clears
`this.captionWindow`, and rethrows the error (`Except.error`).  On
success the `ready-to-show` handler shows the window. -/
def createCaptionWindow (cfg : FailCfg) (s : MainState) : MainState × Except Err Unit :=
  match s.captionWindow with
  | some _ => ((showCaptionWindow cfg s).1, Except.ok ())
  | none =>
      if cfg.ctorFails then
        -- `new BrowserWindow` threw: `this.captionWindow` was never assigned.
        (s, Except.error { message := "window allocation failed", stack := "createCaptionWindow" })
      else if cfg.loadFails then
        -- `loadFile`/`loadURL` threw after the window was assigned:
        -- the catch block closes it (best effort) and clears the handle.
        ({ s with captionWindow := none },
         Except.error { message := "Failed to load caption content", stack := "createCaptionWindow" })
      else
        ((showCaptionWindow cfg { s with captionWindow := some { visible := false } }).1,
         Except.ok ())

/-- The structured result returned by `toggleCaptionOverlay`. -/
structure ToggleResult where
  success : Bool
  enabled : Option Bool
  error : Option String
  stack : Option String
deriving DecidableEq, Repr

/-- `toggleCaptionOverlay(enabled)` (`main.js`, lines 205–257).  The whole
body is wrapped in `try`/`catch`; the only call that can throw into the
`catch` is `createCaptionWindow` (show/hide swallow their own errors).
`this.captionEnabled = enabled` runs only after the window operations
complete.  The `catch` performs an emergency `hide` (itself guarded) and
returns `{success:false, error, stack}` — the function is total and
never propagates an exception. -/
def toggleCaptionOverlay (cfg : FailCfg) (enabled : Bool) (s : MainState) :
    MainState × ToggleResult :=
  let attempt : MainState × Option Err :=
    if enabled then
      match s.captionWindow with
      | none =>
          match createCaptionWindow cfg s with
          | (s1, Except.ok _) => (s1, none)
          | (s1, Except.error e) => (s1, some e)
      | some _ => ((showCaptionWindow cfg s).1, none)
    else
      match s.captionWindow with
      | some _ => ((hideCaptionWindow cfg s).1, none)
      | none => (s, none)
  match attempt with
  | (s1, none) =>
      ({ s1 with captionEnabled := enabled },
       { success := true, enabled := some enabled, error := none, stack := none })
  | (s1, some e) =>
      -- emergency cleanup: `try { this.captionWindow.hide() } catch {}`
      let s2 :=
        match s1.captionWindow with
        | some w =>
            if cfg.hideFails then s1
            else { s1 with captionWindow := some { w with visible := false } }
        | none => s1
      (s2, { success := false, enabled := none, error := some e.message, stack := some e.stack })

/-- `destroyCaptionWindow()` (`main.js`, lines 468–493): hides and closes
the window and clears the handle; on any exception the `catch` block
forces `captionWindow = null` and `captionEnabled = false`; with no
window it only resets `captionEnabled`. -/
def destroyCaptionWindow (cfg : FailCfg) (s : MainState) : MainState :=
  match s.captionWindow with
  | none => { s with captionEnabled := false }
  | some _ =>
      if cfg.hideFails then
        -- `hide()` threw: forced cleanup in the catch block.
        { s with captionWindow := none, captionEnabled := false }
      else if cfg.closeFails then
        -- `close()` threw: forced cleanup in the catch block.
        { s with captionWindow := none, captionEnabled := false }
      else
        { s with captionWindow := none, captionEnabled := false }

/-- The `translation` object carried inside `transcription` /
`transcription_result` wire messages. -/
structure TranslationPayload where
  text : String
  source_language : String
  target_language : String
  polisher_applied : Bool
deriving DecidableEq, Repr

/-- Incoming WebSocket messages handled by the transcription-category
branches of `audioWs.onmessage` in the renderer
(`caption-preload.js`, lines 673–853): the legacy `transcription`
message, and `transcription_result` whose `is_enhancement` flag marks
an EnhancementEvent.  `confidence` is absent (`none`) when the payload
omits it; `translation` is absent when no translation object is sent. -/
inductive WsMessage where
  | transcription (transcript : String) (confidence : Option Rat)
      (translation : Option TranslationPayload)
  | transcriptionResult (is_enhancement : Bool) (transcript : String)
      (confidence : Option Rat) (translation : Option TranslationPayload)
deriving DecidableEq, Repr

/-- Renderer (React) state relevant to the caption pipeline, plus the
Electron main-process state reached through `electronAPI`:
`sourceLanguage`/`targetLanguage` mirror the language selectors,
`lastTranscriptionUpdate` is the throttle ref (initially 0). -/
structure RendererState where
  sourceLanguage : String
  targetLanguage : String
  transcription : String
  translation : String
  confidence : Rat
  translationConfidence : Rat
  isTranscribing : Bool
  lastTranscriptionUpdate : Int
  main : MainState
deriving DecidableEq, Repr

/-- JS `String.prototype.trim`: strip leading and trailing whitespace
(written structurally so that it evaluates by reduction). -/
def jsTrim (s : String) : String :=
  String.mk (((s.data.dropWhile Char.isWhitespace).reverse.dropWhile Char.isWhitespace).reverse)

/-- `TRANSCRIPTION_UPDATE_THROTTLE = 40` (`caption-preload.js`, line 563). -/
def TRANSCRIPTION_UPDATE_THROTTLE : Int := 40

/-- JS `x.confidence ? x.confidence * 100 : 0` (`0` is falsy, so both
arms agree at zero). -/
def confTimes100 (c : Option Rat) : Rat :=
  (c.getD 0) * 100

/-- `updateCaptionOverlay(original, translated, confidence)`
(`caption-preload.js`, lines 1041–1080): builds the payload
`{original, translation: translated || '', confidence,
fromTranscription: true, timestamp: Date.now(),
language: sourceLanguage || 'en', isRealTime: true}` and invokes
`electronAPI.updateCaptionText` (handled by `updateCaptionText` in the
main process). -/
def updateCaptionOverlay (now : Int) (original translated : String) (conf : Rat)
    (s : RendererState) : RendererState :=
  let data : CaptionData :=
    { original := some original
      text := none
      translation := some (if translated = "" then "" else translated)
      translated := none
      confidence := some conf
      sourceLanguage := none
      source_language := none
      targetLanguage := none
      target_language := none
      fromTranscription := some true
      isRealTime := some true
      timestamp := some now
      language := some (jsOrStr (some s.sourceLanguage) "en") }
  { s with main := updateCaptionText now data s.main }

/-- One step of `audioWs.onmessage` for the transcription-category
messages (`caption-preload.js`): the `transcription` branch
(lines 678–715) and the `transcription_result` branch (737–806).
`now` is `Date.now()` at handling time.  The enhancement sub-branch
(`data.is_enhancement && result.translation`) runs before and without
the throttle gate and returns early; the regular branches update the
transcript/translation state and `lastTranscriptionUpdate` only when
`now - lastTranscriptionUpdate > TRANSCRIPTION_UPDATE_THROTTLE`. -/
def handleMessage (now : Int) (msg : WsMessage) (s : RendererState) : RendererState :=
  match msg with
  | .transcription transcript conf transl =>
      if TRANSCRIPTION_UPDATE_THROTTLE < now - s.lastTranscriptionUpdate then
        let s1 :=
          if jsTrim transcript = "" then s
          else
            let base := { s with transcription := transcript, confidence := confTimes100 conf }
            match transl with
            | some tp =>
                if tp.text = "" then
                  updateCaptionOverlay now transcript "" (confTimes100 conf)
                    { base with translation := "", translationConfidence := 0 }
                else
                  updateCaptionOverlay now transcript tp.text (confTimes100 conf)
                    { base with translation := tp.text, translationConfidence := 85 }
            | none =>
                updateCaptionOverlay now transcript "" (confTimes100 conf)
                  { base with translation := "", translationConfidence := 0 }
        { s1 with lastTranscriptionUpdate := now }
      else s
  | .transcriptionResult is_enhancement transcript conf transl =>
      match is_enhancement, transl with
      | true, some tp =>
          -- AI enhancement: applied immediately, bypassing the throttle,
          -- then `return` (no `lastTranscriptionUpdate` write).
          updateCaptionOverlay now transcript tp.text (confTimes100 conf)
            { s with translation := tp.text, translationConfidence := 90 }
      | _, _ =>
          let s1 :=
            if TRANSCRIPTION_UPDATE_THROTTLE < now - s.lastTranscriptionUpdate then
              let s2 :=
                if jsTrim transcript = "" then s
                else
                  let base := { s with transcription := transcript, confidence := confTimes100 conf }
                  match transl with
                  | some tp =>
                      if tp.text = "" then
                        updateCaptionOverlay now transcript "" (confTimes100 conf)
                          { base with translation := "", translationConfidence := 0 }
                      else
                        updateCaptionOverlay now transcript tp.text (confTimes100 conf)
                          { base with translation := tp.text,
                                      translationConfidence := if tp.polisher_applied then 85 else 75 }
                  | none =>
                      updateCaptionOverlay now transcript "" (confTimes100 conf)
                        { base with translation := "", translationConfidence := 0 }
              { s2 with lastTranscriptionUpdate := now }
            else s
          { s1 with isTranscribing := false }

/-- Process a trace of timestamped WebSocket messages in arrival order. -/
def runMessages (s : RendererState) : List (Int × WsMessage) → RendererState
  | [] => s
  | (t, m) :: rest => runMessages (handleMessage t m s) rest

/-- A message is of the transcription category iff it is a legacy
`transcription` message or a `transcription_result` that is not routed
through the enhancement sub-branch. -/
def transcriptionCategory (msg : WsMessage) : Bool :=
  match msg with
  | .transcription _ _ _ => true
  | .transcriptionResult is_enhancement _ _ transl => !(is_enhancement && transl.isSome)

/-- A transcription-category message is accepted (passes the throttle
gate) iff `now - lastTranscriptionUpdate > TRANSCRIPTION_UPDATE_THROTTLE`. -/
def acceptedTranscription (now : Int) (msg : WsMessage) (s : RendererState) : Bool :=
  transcriptionCategory msg &&
    decide (TRANSCRIPTION_UPDATE_THROTTLE < now - s.lastTranscriptionUpdate)

/-- The arrival times of the transcription-category messages a trace
gets past the throttle gate. -/
def acceptedTimes (s : RendererState) : List (Int × WsMessage) → List Int
  | [] => []
  | (t, m) :: rest =>
      if acceptedTranscription t m s then t :: acceptedTimes (handleMessage t m s) rest
      else acceptedTimes (handleMessage t m s) rest

/-- Modelled from the spec: the backend Audio Segmenter
(`backend/src/audio/stream_handler.py` is not included under `src/`;
only the spec §4.1 policy and the buffer-processing pseudocode of the
truncation-fix document describe it).  Configuration thresholds, in
milliseconds, plus the fixed per-frame duration (`AudioFrame` is a
fixed-size PCM buffer, so its duration is set by the audio
configuration) and the voice-activity volume threshold in percent. -/
structure SegConfig where
  frameMs : Nat
  minMs : Nat
  targetMs : Nat
  maxMs : Nat
  silenceThresholdMs : Nat
  volumeThreshold : Nat
deriving DecidableEq, Repr

/-- The default segmenter configuration: 1.0s frames
(`buffer_duration: 1.0` in `start_capture`), `SPEECH_BUFFER_MIN_DURATION
= 2.0`, `SPEECH_BUFFER_TARGET_DURATION = 5.0`, `SPEECH_BUFFER_MAX_DURATION
= 15.0`, `SPEECH_SILENCE_THRESHOLD = 1.5`, `SPEECH_VOLUME_THRESHOLD = 20`. -/
def defaultSegConfig : SegConfig :=
  { frameMs := 1000, minMs := 2000, targetMs := 5000, maxMs := 15000
    silenceThresholdMs := 1500, volumeThreshold := 20 }

/-- Modelled from the spec: per-session segmenter buffer state —
`bufferDuration` (time since segment start) and `silenceDuration`
(time since loudness last exceeded the volume threshold). -/
structure SegState where
  bufferMs : Nat
  silenceMs : Nat
deriving DecidableEq, Repr

/-- The `process_reason` labels of the buffer-processing pseudocode. -/
inductive ProcessReason where
  | max_duration_reached
  | silence_break_detected
  | target_duration_reached
deriving DecidableEq, Repr

/-- An emitted speech segment: its duration and the reason it was cut. -/
structure SpeechSegment where
  durMs : Nat
  reason : ProcessReason
deriving DecidableEq, Repr

/-- Modelled from the spec: `ingest(frame)` of the Audio Segmenter.
The frame extends the buffer by `frameMs` and either resets or extends
the silence clock depending on whether its loudness exceeds
`volumeThreshold`; then the emission conditions are checked in the
spec's priority order: (1) `bufferDuration >= maxDuration`,
(2) `bufferDuration >= minDuration && silenceDuration >=
silenceThreshold`, (3) `bufferDuration >= targetDuration`.  Emission
resets the buffer. -/
def ingest (cfg : SegConfig) (volumePercent : Nat) (s : SegState) :
    SegState × Option SpeechSegment :=
  let buffer := s.bufferMs + cfg.frameMs
  let silence := if cfg.volumeThreshold < volumePercent then 0 else s.silenceMs + cfg.frameMs
  if cfg.maxMs ≤ buffer then
    ({ bufferMs := 0, silenceMs := 0 },
     some { durMs := buffer, reason := ProcessReason.max_duration_reached })
  else if cfg.minMs ≤ buffer ∧ cfg.silenceThresholdMs ≤ silence then
    ({ bufferMs := 0, silenceMs := 0 },
     some { durMs := buffer, reason := ProcessReason.silence_break_detected })
  else if cfg.targetMs ≤ buffer then
    ({ bufferMs := 0, silenceMs := 0 },
     some { durMs := buffer, reason := ProcessReason.target_duration_reached })
  else
    ({ bufferMs := buffer, silenceMs := silence }, none)

/-- Feed a sequence of frames (given by their loudness, in percent) to
the segmenter and collect every emitted segment. -/
def ingestAll (cfg : SegConfig) (s : SegState) : List Nat → List SpeechSegment
  | [] => []
  | v :: rest =>
      match ingest cfg v s with
      | (s1, some seg) => seg :: ingestAll cfg s1 rest
      | (s1, none) => ingestAll cfg s1 rest

/-- A main-process state with a visible caption overlay window. -/
def overlayOn : MainState :=
  { captionWindow := some { visible := true }, captionEnabled := true, deliveredCaption := none }

/-- A main-process state with no caption window. -/
def noWin : MainState :=
  { captionWindow := none, captionEnabled := false, deliveredCaption := none }

/-- Initial renderer state for a session with the given language
selection and the overlay enabled (throttle ref starts at 0, as
`useRef<number>(0)`). -/
def rendererInit (src tgt : String) : RendererState :=
  { sourceLanguage := src, targetLanguage := tgt, transcription := "", translation := ""
    confidence := 0, translationConfidence := 0, isTranscribing := false
    lastTranscriptionUpdate := 0, main := overlayOn }

/-- A failure configuration in which only `new BrowserWindow` throws. -/
def ctorFailCfg : FailCfg :=
  { ctorFails := true, loadFails := false, showFails := false, hideFails := false
    closeFails := false }

/-- A caption payload with every optional field absent. -/
def emptyCaptionData : CaptionData :=
  { original := none, text := none, translation := none, translated := none
    confidence := none, sourceLanguage := none, source_language := none
    targetLanguage := none, target_language := none, fromTranscription := none
    isRealTime := none, timestamp := none, language := none }

/-- The base TranscriptionEvent of the C1 scenario: original `"Hola"`,
no translation yet, arriving at `t = 100` with confidence `0.92`. -/
def c1BaseEvent : Int × WsMessage :=
  (100, WsMessage.transcriptionResult false "Hola" (some (92/100)) none)

/-- The EnhancementEvent of the C1 scenario: refers to the `"Hola"`
utterance, improved translation `"Hello"`, arriving at `t = 250`. -/
def c1Enhancement : Int × WsMessage :=
  (250, WsMessage.transcriptionResult true "Hola" (some (92/100))
     (some { text := "Hello", source_language := "en", target_language := "es"
             polisher_applied := true }))

/-- The TranscriptionEvent of the C3 scenario: confidence `0.92`, sent
while the session languages are `en → es`. -/
def c3Event : Int × WsMessage :=
  (100, WsMessage.transcriptionResult false "Hola" (some (92/100)) none)

/-- C4 scenario, first transcription: `"Hola"` at `t = 100`. -/
def c4First : Int × WsMessage :=
  (100, WsMessage.transcriptionResult false "Hola" (some (9/10)) none)

/-- C4 scenario, superseding transcription: `"Adios"` at `t = 200`. -/
def c4Second : Int × WsMessage :=
  (200, WsMessage.transcriptionResult false "Adios" (some (9/10)) none)

/-- C4 scenario, enhancement for the superseded `"Hola"` utterance at
`t = 300`. -/
def c4Enh : Int × WsMessage :=
  (300, WsMessage.transcriptionResult true "Hola" (some (9/10))
     (some { text := "Hello", source_language := "en", target_language := "es"
             polisher_applied := true }))

/-- A trace for exercising the throttle: two transcription results 100ms
apart followed by a fast one 10ms later. -/
def c2DemoTrace : List (Int × WsMessage) :=
  [(100, WsMessage.transcriptionResult false "Hola" (some (9/10)) none),
   (200, WsMessage.transcriptionResult false "Adios" (some (9/10)) none),
   (210, WsMessage.transcriptionResult false "Ciao" (some (9/10)) none)]

/-- A rejected (throttled) transcription message used as a witness input. -/
def c2RejectedMsg : WsMessage :=
  WsMessage.transcriptionResult false "Hola" (some (9/10)) none

/-! ### Shared helper lemmas -/

theorem jsOrBool_true (a : Option Bool) : jsOrBool a true = true := by
  cases a with
  | none => rfl
  | some x => cases x <;> rfl

theorem showCaptionWindow_enabled (cfg : FailCfg) (s : MainState) :
    (showCaptionWindow cfg s).1.captionEnabled = s.captionEnabled := by
  unfold showCaptionWindow
  cases s.captionWindow <;> simp
  split <;> rfl

theorem hideCaptionWindow_enabled (cfg : FailCfg) (s : MainState) :
    (hideCaptionWindow cfg s).1.captionEnabled = s.captionEnabled := by
  unfold hideCaptionWindow
  cases s.captionWindow <;> simp
  split <;> rfl

theorem createCaptionWindow_enabled (cfg : FailCfg) (s : MainState) :
    (createCaptionWindow cfg s).1.captionEnabled = s.captionEnabled := by
  unfold createCaptionWindow
  cases s.captionWindow with
  | none =>
      simp only
      split
      · rfl
      · split
        · rfl
        · exact showCaptionWindow_enabled cfg _
  | some w => exact showCaptionWindow_enabled cfg s

theorem updateCaptionOverlay_lastUpdate (now : Int) (o t : String) (c : Rat)
    (s : RendererState) :
    (updateCaptionOverlay now o t c s).lastTranscriptionUpdate =
      s.lastTranscriptionUpdate := rfl

/-- `lastTranscriptionUpdate` after one message: it becomes `now` exactly
when the message is an accepted transcription-category message, and is
untouched otherwise. -/
theorem handleMessage_lastUpdate (now : Int) (msg : WsMessage) (s : RendererState) :
    (handleMessage now msg s).lastTranscriptionUpdate =
      (if acceptedTranscription now msg s then now else s.lastTranscriptionUpdate) := by
  cases msg with
  | transcription transcript conf transl =>
      by_cases hgate : TRANSCRIPTION_UPDATE_THROTTLE < now - s.lastTranscriptionUpdate <;>
        simp [handleMessage, acceptedTranscription, transcriptionCategory, hgate]
  | transcriptionResult is_enhancement transcript conf transl =>
      cases is_enhancement <;> cases transl <;>
        (by_cases hgate : TRANSCRIPTION_UPDATE_THROTTLE < now - s.lastTranscriptionUpdate <;>
          simp [handleMessage, acceptedTranscription, transcriptionCategory, hgate,
            updateCaptionOverlay_lastUpdate])

theorem acceptedTranscription_gap (now : Int) (msg : WsMessage) (s : RendererState)
    (h : acceptedTranscription now msg s = true) :
    TRANSCRIPTION_UPDATE_THROTTLE < now - s.lastTranscriptionUpdate := by
  simp only [acceptedTranscription, Bool.and_eq_true, decide_eq_true_eq] at h
  exact h.2

/-- Every time in `acceptedTimes s trace` is more than one throttle
interval after the `lastTranscriptionUpdate` of the starting state. -/
theorem acceptedTimes_mem_gap (trace : List (Int × WsMessage)) :
    ∀ (s : RendererState) (t : Int), t ∈ acceptedTimes s trace →
      TRANSCRIPTION_UPDATE_THROTTLE < t - s.lastTranscriptionUpdate := by
  induction trace with
  | nil => intro s t h; simp [acceptedTimes] at h
  | cons p rest ih =>
      obtain ⟨t0, m⟩ := p
      intro s t h
      by_cases hacc : acceptedTranscription t0 m s = true
      · simp only [acceptedTimes, hacc, if_true] at h
        rcases List.mem_cons.mp h with rfl | hmem
        · exact acceptedTranscription_gap t m s hacc
        · have h2 := ih (handleMessage t0 m s) t hmem
          simp only [handleMessage_lastUpdate, hacc, if_true] at h2
          have h3 := acceptedTranscription_gap t0 m s hacc
          simp only [TRANSCRIPTION_UPDATE_THROTTLE] at h2 h3 ⊢
          omega
      · simp only [acceptedTimes, hacc, if_false, Bool.false_eq_true] at h
        have h2 := ih (handleMessage t0 m s) t h
        rwa [handleMessage_lastUpdate, if_neg (by simp [hacc])] at h2

/-- Any two accepted transcription-category updates are more than one
throttle interval apart. -/
theorem acceptedTimes_pairwise_gap (trace : List (Int × WsMessage)) :
    ∀ s : RendererState, (acceptedTimes s trace).Pairwise
      (fun a b => TRANSCRIPTION_UPDATE_THROTTLE < b - a) := by
  induction trace with
  | nil => intro s; simp [acceptedTimes]
  | cons p rest ih =>
      obtain ⟨t0, m⟩ := p
      intro s
      by_cases hacc : acceptedTranscription t0 m s = true
      · simp only [acceptedTimes, hacc, if_true]
        refine List.Pairwise.cons ?_ (ih _)
        intro b hb
        have h2 := acceptedTimes_mem_gap rest (handleMessage t0 m s) b hb
        simpa only [handleMessage_lastUpdate, hacc, if_true] using h2
      · simp only [acceptedTimes, hacc, if_false, Bool.false_eq_true]
        exact ih _

/-- A list whose elements are pairwise more than 40 apart has at most
one element inside any closed window of width 40. -/
theorem pairwise_gap_window (l : List Int) (a : Int)
    (h : l.Pairwise (fun x y => TRANSCRIPTION_UPDATE_THROTTLE < y - x)) :
    (l.filter (fun t => decide (a ≤ t ∧ t ≤ a + TRANSCRIPTION_UPDATE_THROTTLE))).length ≤ 1 := by
  have hsub : (l.filter (fun t => decide (a ≤ t ∧ t ≤ a + TRANSCRIPTION_UPDATE_THROTTLE))).Pairwise
      (fun x y => TRANSCRIPTION_UPDATE_THROTTLE < y - x) :=
    h.sublist (List.filter_sublist l)
  have hmem : ∀ x ∈ l.filter (fun t => decide (a ≤ t ∧ t ≤ a + TRANSCRIPTION_UPDATE_THROTTLE)),
      a ≤ x ∧ x ≤ a + TRANSCRIPTION_UPDATE_THROTTLE := by
    intro x hx
    exact of_decide_eq_true (List.mem_filter.mp hx).2
  revert hsub hmem
  generalize l.filter _ = m
  intro hsub hmem
  rcases m with _ | ⟨x, _ | ⟨y, rest⟩⟩
  · simp
  · simp
  · exfalso
    have h1 := (List.pairwise_cons.mp hsub).1 y (by simp)
    have h2 := hmem x (by simp)
    have h3 := hmem y (by simp)
    simp only [TRANSCRIPTION_UPDATE_THROTTLE] at h1 h2 h3
    omega

/-! ### Claim theorems -/

/-- C10: every call to `destroyCaptionWindow` terminates with
`captionWindow = null` and `captionEnabled = false`, in every failure
configuration (including when `hide`/`close` throw, via the forced
cleanup in the catch block) and also when no window exists (safe no-op
on the handle). -/
theorem destroyCaptionWindow_resets (cfg : FailCfg) (s : MainState) :
    (destroyCaptionWindow cfg s).captionWindow = none ∧
    (destroyCaptionWindow cfg s).captionEnabled = false := by
  cases h : s.captionWindow <;> simp [destroyCaptionWindow, h]

/-- C8: the caption state broadcast to the overlay window always has
`fromTranscription = true` and `isRealTime = true`: the JS coercions
`data.fromTranscription || true` and `data.isRealTime || true` can
never produce `false`, even when the caller explicitly passes `false`
(covered here by the quantification over every `data`). -/
theorem bilingualData_flags_always_true (now : Int) (data : CaptionData) :
    (bilingualData now data).fromTranscription = true ∧
    (bilingualData now data).isRealTime = true :=
  ⟨jsOrBool_true data.fromTranscription, jsOrBool_true data.isRealTime⟩

/-- C5: `toggleCaptionOverlay(true)` with no existing window and a
failing allocation (`new BrowserWindow`) or load (`loadFile`) never
throws across the boundary (the function is total by construction): it
returns the structured failure `{success:false, error, stack}` and
leaves the window handle cleared (`captionWindow = none`, the Absent
state), after the best-effort emergency cleanup. -/
theorem toggleCaptionOverlay_enable_failure (cfg : FailCfg) (s : MainState)
    (hwin : s.captionWindow = none)
    (hfail : cfg.ctorFails = true ∨ cfg.loadFails = true) :
    (toggleCaptionOverlay cfg true s).2.success = false ∧
    (toggleCaptionOverlay cfg true s).2.error.isSome = true ∧
    (toggleCaptionOverlay cfg true s).2.stack.isSome = true ∧
    (toggleCaptionOverlay cfg true s).1.captionWindow = none := by
  rcases hfail with h | h
  · simp [toggleCaptionOverlay, createCaptionWindow, hwin, h]
  · cases hc : cfg.ctorFails
    · simp [toggleCaptionOverlay, createCaptionWindow, hwin, h, hc]
    · simp [toggleCaptionOverlay, createCaptionWindow, hwin, hc]

/-- Witness for C5 at a concrete failing configuration and state. -/
theorem toggleCaptionOverlay_enable_failure_witness :
    (toggleCaptionOverlay ctorFailCfg true noWin).2.success = false ∧
    (toggleCaptionOverlay ctorFailCfg true noWin).2.error.isSome = true ∧
    (toggleCaptionOverlay ctorFailCfg true noWin).2.stack.isSome = true ∧
    (toggleCaptionOverlay ctorFailCfg true noWin).1.captionWindow = none :=
  toggleCaptionOverlay_enable_failure ctorFailCfg noWin rfl (Or.inl rfl)

/-- C9: whenever `toggleCaptionOverlay` returns `{success:false}`, the
`captionEnabled` flag keeps its prior value: the assignment
`this.captionEnabled = enabled` runs only after the window operations
complete without throwing. -/
theorem toggleCaptionOverlay_failure_keeps_flag (cfg : FailCfg) (enabled : Bool)
    (s : MainState)
    (h : (toggleCaptionOverlay cfg enabled s).2.success = false) :
    (toggleCaptionOverlay cfg enabled s).1.captionEnabled = s.captionEnabled := by
  cases enabled <;> cases hw : s.captionWindow
  · simp [toggleCaptionOverlay, hw] at h
  · simp [toggleCaptionOverlay, hw] at h
  · rcases hc : createCaptionWindow cfg s with ⟨s1, r⟩
    cases r with
    | ok u => simp [toggleCaptionOverlay, hw, hc] at h
    | error e =>
        have he : s1.captionEnabled = s.captionEnabled := by
          have := createCaptionWindow_enabled cfg s
          rw [hc] at this
          exact this
        simp only [toggleCaptionOverlay, hw, hc]
        cases h1 : s1.captionWindow <;> simp [h1, he]
        split <;> simp [he]
  · simp [toggleCaptionOverlay, hw] at h

/-- Witness for C9 at a concrete failing call. -/
theorem toggleCaptionOverlay_failure_keeps_flag_witness :
    (toggleCaptionOverlay ctorFailCfg true noWin).1.captionEnabled = noWin.captionEnabled :=
  toggleCaptionOverlay_failure_keeps_flag ctorFailCfg true noWin rfl

/-- C6: the broadcast layer canonicalizes missing optional fields to the
safe defaults (`confidence: 0`, `translation: ''`,
`sourceLanguage: 'auto'`, `targetLanguage: 'en'`) and stamps `timestamp`
when absent, before pushing the canonical state to the overlay window;
and with zero overlay windows the publish is a safe no-op (the total
function returns the state unchanged, so nothing is buffered for
windows created later). -/
theorem updateCaptionText_defaults_and_noop :
    (∀ (now : Int) (data : CaptionData) (s : MainState),
       s.captionWindow = none → updateCaptionText now data s = s)
    ∧ (∀ (now : Int) (data : CaptionData) (s : MainState) (w : CapWin),
         s.captionWindow = some w →
           (updateCaptionText now data s).deliveredCaption = some (bilingualData now data))
    ∧ (∀ (now : Int) (data : CaptionData),
         (data.confidence = none → (bilingualData now data).confidence = 0)
         ∧ (data.translation = none → data.translated = none →
              (bilingualData now data).translation = "")
         ∧ (data.sourceLanguage = none → data.source_language = none →
              (bilingualData now data).sourceLanguage = "auto")
         ∧ (data.targetLanguage = none → data.target_language = none →
              (bilingualData now data).targetLanguage = "en")
         ∧ (data.timestamp = none → (bilingualData now data).timestamp = now)) := by
  refine ⟨?_, ?_, ?_⟩
  · intro now data s h
    simp [updateCaptionText, h]
  · intro now data s w h
    simp [updateCaptionText, h]
  · intro now data
    refine ⟨fun h => ?_, fun h1 h2 => ?_, fun h1 h2 => ?_, fun h1 h2 => ?_, fun _ => rfl⟩
    · simp [bilingualData, h]
    · simp [bilingualData, jsOrStr, h1, h2]
    · simp [bilingualData, jsOrStr, h1, h2]
    · simp [bilingualData, jsOrStr, h1, h2]

/-- Witness for C6 at a concrete empty payload and windowless state. -/
theorem updateCaptionText_defaults_and_noop_witness :
    updateCaptionText 7 emptyCaptionData noWin = noWin ∧
    (bilingualData 7 emptyCaptionData).confidence = 0 ∧
    (bilingualData 7 emptyCaptionData).translation = "" ∧
    (bilingualData 7 emptyCaptionData).sourceLanguage = "auto" ∧
    (bilingualData 7 emptyCaptionData).targetLanguage = "en" ∧
    (bilingualData 7 emptyCaptionData).timestamp = 7 :=
  ⟨updateCaptionText_defaults_and_noop.1 7 emptyCaptionData noWin rfl,
   (updateCaptionText_defaults_and_noop.2.2 7 emptyCaptionData).1 rfl,
   (updateCaptionText_defaults_and_noop.2.2 7 emptyCaptionData).2.1 rfl rfl,
   (updateCaptionText_defaults_and_noop.2.2 7 emptyCaptionData).2.2.1 rfl rfl,
   (updateCaptionText_defaults_and_noop.2.2 7 emptyCaptionData).2.2.2.1 rfl rfl,
   (updateCaptionText_defaults_and_noop.2.2 7 emptyCaptionData).2.2.2.2 rfl⟩

/-- C2: (i) for every event trace and every session state, at most one
transcription-category update is accepted within any 40ms window
(`[a, a + 40]` for any `a`); (ii) an event is accepted only if
`now - lastAcceptedTimestamp ≥ interval` (the code's strict `>` gate
implies the claimed `≥`); (iii) a rejected transcription-category event
is dropped: the transcript/translation state, the throttle timestamp and
the main-process caption state are all left exactly as they were, so
nothing is queued or replayed later. -/
theorem transcription_throttle_policy :
    (∀ (s : RendererState) (trace : List (Int × WsMessage)) (a : Int),
       ((acceptedTimes s trace).filter
           (fun t => decide (a ≤ t ∧ t ≤ a + TRANSCRIPTION_UPDATE_THROTTLE))).length ≤ 1)
    ∧ (∀ (now : Int) (msg : WsMessage) (s : RendererState),
         acceptedTranscription now msg s = true →
           TRANSCRIPTION_UPDATE_THROTTLE ≤ now - s.lastTranscriptionUpdate)
    ∧ (∀ (now : Int) (msg : WsMessage) (s : RendererState),
         transcriptionCategory msg = true →
         acceptedTranscription now msg s = false →
           (handleMessage now msg s).transcription = s.transcription ∧
           (handleMessage now msg s).translation = s.translation ∧
           (handleMessage now msg s).confidence = s.confidence ∧
           (handleMessage now msg s).translationConfidence = s.translationConfidence ∧
           (handleMessage now msg s).lastTranscriptionUpdate = s.lastTranscriptionUpdate ∧
           (handleMessage now msg s).main = s.main) := by
  refine ⟨?_, ?_, ?_⟩
  · intro s trace a
    exact pairwise_gap_window _ a (acceptedTimes_pairwise_gap trace s)
  · intro now msg s h
    exact le_of_lt (acceptedTranscription_gap now msg s h)
  · intro now msg s hcat hrej
    have hgate : ¬ TRANSCRIPTION_UPDATE_THROTTLE < now - s.lastTranscriptionUpdate := by
      intro hlt
      have : acceptedTranscription now msg s = true := by
        simp [acceptedTranscription, hcat, hlt]
      simp [this] at hrej
    cases msg with
    | transcription transcript conf transl =>
        simp [handleMessage, if_neg hgate]
    | transcriptionResult is_enhancement transcript conf transl =>
        cases is_enhancement <;> cases transl
        · simp [handleMessage, if_neg hgate]
        · simp [handleMessage, if_neg hgate]
        · simp [handleMessage, if_neg hgate]
        · simp [transcriptionCategory] at hcat

/-- Witness for C2 at concrete inputs: a three-event trace with a
rejected third event, an accepted event at `t = 100` from the initial
state, and a rejected event at `t = 10` after an acceptance at `t = 0`. -/
theorem transcription_throttle_policy_witness :
    ((acceptedTimes (rendererInit "en" "es") c2DemoTrace).filter
        (fun t => decide (190 ≤ t ∧ t ≤ 190 + TRANSCRIPTION_UPDATE_THROTTLE))).length ≤ 1 ∧
    TRANSCRIPTION_UPDATE_THROTTLE ≤ (100 : Int) - (rendererInit "en" "es").lastTranscriptionUpdate ∧
    (handleMessage 10 c2RejectedMsg (rendererInit "en" "es")).transcription =
      (rendererInit "en" "es").transcription :=
  ⟨transcription_throttle_policy.1 (rendererInit "en" "es") c2DemoTrace 190,
   transcription_throttle_policy.2.1 100 c2RejectedMsg (rendererInit "en" "es") (by decide),
   (transcription_throttle_policy.2.2 10 c2RejectedMsg (rendererInit "en" "es")
      (by decide) (by decide)).1⟩

/-- C1 counterexample: after `TranscriptionEvent("Hola", t=100)` then
`EnhancementEvent(refersTo="Hola", improved="Hello", t=250)`, the
caption state delivered to the overlay has `original = "Hola"` and
`translation = "Hello"` as claimed, but its `timestamp` is `250` (the
enhancement's delivery time), not the claimed unchanged `100`: both
`updateCaptionOverlay` and `updateCaptionText` restamp `timestamp`
with `Date.now()`. -/
theorem enhancement_restamps_timestamp :
    (runMessages (rendererInit "en" "es") [c1BaseEvent, c1Enhancement]).main.deliveredCaption.map
        CaptionState.original = some "Hola" ∧
    (runMessages (rendererInit "en" "es") [c1BaseEvent, c1Enhancement]).main.deliveredCaption.map
        CaptionState.translation = some "Hello" ∧
    (runMessages (rendererInit "en" "es") [c1BaseEvent, c1Enhancement]).main.deliveredCaption.map
        CaptionState.timestamp = some 250 ∧
    (runMessages (rendererInit "en" "es") [c1BaseEvent, c1Enhancement]).main.deliveredCaption.map
        CaptionState.timestamp ≠ some 100 := by
  simp +decide [runMessages, handleMessage, updateCaptionOverlay, updateCaptionText,
    bilingualData, jsOrStr, jsOrBool, confTimes100, TRANSCRIPTION_UPDATE_THROTTLE,
    c1BaseEvent, c1Enhancement, rendererInit, overlayOn]

/-- C1 amended: applying the EnhancementEvent leaves `original`
unchanged and overwrites `translation` (and confidence), but the
resulting CaptionState carries `timestamp = 250` — the delivery time of
the enhancement — rather than the base event's `100`. -/
theorem enhancement_applies_translation_restamped :
    (runMessages (rendererInit "en" "es") [c1BaseEvent, c1Enhancement]).main.deliveredCaption =
      some { original := "Hola", translation := "Hello", confidence := 92,
             sourceLanguage := "auto", targetLanguage := "en",
             fromTranscription := true, isRealTime := true, timestamp := 250 } := by
  simp +decide [runMessages, handleMessage, updateCaptionOverlay, updateCaptionText,
    bilingualData, jsOrStr, jsOrBool, confTimes100, TRANSCRIPTION_UPDATE_THROTTLE,
    c1BaseEvent, c1Enhancement, rendererInit, overlayOn]

/-- C3 counterexample: in the scenario (session languages `en → es`,
TranscriptionEvent with confidence `0.92`) the caption state delivered
to the overlay has `confidence = 92` as claimed, but
`sourceLanguage = "auto"` and `targetLanguage = "en"`, not the claimed
`"en"`/`"es"`: `updateCaptionOverlay` forwards only a `language` field,
which `updateCaptionText` ignores, so the broadcast defaults apply. -/
theorem caption_language_defaults_counterexample :
    (runMessages (rendererInit "en" "es") [c3Event]).main.deliveredCaption.map
        CaptionState.confidence = some 92 ∧
    (runMessages (rendererInit "en" "es") [c3Event]).main.deliveredCaption.map
        CaptionState.sourceLanguage = some "auto" ∧
    (runMessages (rendererInit "en" "es") [c3Event]).main.deliveredCaption.map
        CaptionState.sourceLanguage ≠ some "en" ∧
    (runMessages (rendererInit "en" "es") [c3Event]).main.deliveredCaption.map
        CaptionState.targetLanguage = some "en" ∧
    (runMessages (rendererInit "en" "es") [c3Event]).main.deliveredCaption.map
        CaptionState.targetLanguage ≠ some "es" := by
  simp +decide [runMessages, handleMessage, updateCaptionOverlay, updateCaptionText,
    bilingualData, jsOrStr, jsOrBool, confTimes100, TRANSCRIPTION_UPDATE_THROTTLE,
    c3Event, rendererInit, overlayOn]

/-- C3 amended: the scenario yields the CaptionState
`{original: "Hola", translation: "", confidence: 92,
sourceLanguage: "auto", targetLanguage: "en", timestamp: 100}` — the
confidence is scaled to 92 as claimed, while the language fields fall
back to the broadcast-layer defaults because the session's language
configuration is never forwarded on this path. -/
theorem caption_confidence_scaled_language_defaults :
    (runMessages (rendererInit "en" "es") [c3Event]).main.deliveredCaption =
      some { original := "Hola", translation := "", confidence := 92,
             sourceLanguage := "auto", targetLanguage := "en",
             fromTranscription := true, isRealTime := true, timestamp := 100 } := by
  simp +decide [runMessages, handleMessage, updateCaptionOverlay, updateCaptionText,
    bilingualData, jsOrStr, jsOrBool, confTimes100, TRANSCRIPTION_UPDATE_THROTTLE,
    c3Event, rendererInit, overlayOn]

/-- C4 counterexample: `"Hola"` (t=100) is superseded by `"Adios"`
(t=200); the enhancement referring to `"Hola"` (t=300) is nevertheless
applied: the delivered caption state changes (so the enhancement is not
dropped) and its `original` reverts to `"Hola"` with
`translation = "Hello"`, instead of the unchanged `"Adios"` state the
claim requires. -/
theorem superseded_enhancement_still_applied :
    (runMessages (rendererInit "en" "es") [c4First, c4Second]).main.deliveredCaption.map
        CaptionState.original = some "Adios" ∧
    (runMessages (rendererInit "en" "es") [c4First, c4Second, c4Enh]).main.deliveredCaption.map
        CaptionState.original = some "Hola" ∧
    (runMessages (rendererInit "en" "es") [c4First, c4Second, c4Enh]).main.deliveredCaption.map
        CaptionState.translation = some "Hello" ∧
    (runMessages (rendererInit "en" "es") [c4First, c4Second, c4Enh]).main.deliveredCaption ≠
      (runMessages (rendererInit "en" "es") [c4First, c4Second]).main.deliveredCaption := by
  simp +decide [runMessages, handleMessage, updateCaptionOverlay, updateCaptionText,
    bilingualData, jsOrStr, jsOrBool, confTimes100, TRANSCRIPTION_UPDATE_THROTTLE,
    c4First, c4Second, c4Enh, rendererInit, overlayOn]

/-- C4 amended: the reconciler applies every enhancement event that
carries a translation object unconditionally — it performs no matching
of `refersToUtteranceText` against the current caption state and no
supersession check: whenever the overlay window exists, the delivered
caption state becomes the enhancement's own transcript and improved
translation (restamped with the delivery time), whatever state was
current before. -/
theorem enhancement_applied_unconditionally (now : Int) (transcript : String)
    (conf : Option Rat) (tp : TranslationPayload) (s : RendererState)
    (h : s.main.captionWindow.isSome = true) :
    (handleMessage now (WsMessage.transcriptionResult true transcript conf (some tp)) s).main.deliveredCaption =
      some { original := transcript, translation := tp.text,
             confidence := confTimes100 conf, sourceLanguage := "auto",
             targetLanguage := "en", fromTranscription := true,
             isRealTime := true, timestamp := now } := by
  obtain ⟨w, hw⟩ := Option.isSome_iff_exists.mp h
  by_cases ht : transcript = "" <;> by_cases htp : tp.text = "" <;>
    simp [handleMessage, updateCaptionOverlay, updateCaptionText, hw,
      bilingualData, jsOrStr, jsOrBool, ht, htp]

/-- Witness for the amended C4 at concrete inputs. -/
theorem enhancement_applied_unconditionally_witness :
    (handleMessage 300 (WsMessage.transcriptionResult true "Hola" (some (9/10))
        (some { text := "Hello", source_language := "en", target_language := "es"
                polisher_applied := true }))
      (rendererInit "en" "es")).main.deliveredCaption =
      some { original := "Hola", translation := "Hello",
             confidence := confTimes100 (some (9/10)), sourceLanguage := "auto",
             targetLanguage := "en", fromTranscription := true,
             isRealTime := true, timestamp := 300 } :=
  enhancement_applied_unconditionally 300 "Hola" (some (9/10))
    { text := "Hello", source_language := "en", target_language := "es"
      polisher_applied := true }
    (rendererInit "en" "es") rfl

/-- C7: for every frame sequence, every emitted SpeechSegment has
`minDuration ≤ duration ≤ maxDuration` (2.0s–15.0s under the defaults),
and a silence-break emission never fires before `minDuration`.  The
emission conditions are checked in the spec's priority order inside
`ingest` (max cap, then min-plus-silence, then target).  The hypotheses
record the configuration validity the spec requires
(`min ≤ target ≤ max`, with room for one frame below the cap — satisfied
by the defaults) and that the buffer starts below `targetDuration`
(true of the empty buffer). -/
theorem ingestAll_duration_bounds (cfg : SegConfig)
    (hmin : cfg.minMs ≤ cfg.targetMs)
    (hframe : cfg.targetMs + cfg.frameMs ≤ cfg.maxMs) :
    ∀ (vols : List Nat) (s : SegState), s.bufferMs < cfg.targetMs →
      ∀ seg ∈ ingestAll cfg s vols,
        cfg.minMs ≤ seg.durMs ∧ seg.durMs ≤ cfg.maxMs ∧
        (seg.reason = ProcessReason.silence_break_detected → cfg.minMs ≤ seg.durMs) := by
  intro vols
  induction vols with
  | nil => intro s hs seg hseg; simp [ingestAll] at hseg
  | cons v rest ih =>
      intro s hs seg hseg
      rw [ingestAll] at hseg
      have h1 : ¬ cfg.maxMs ≤ s.bufferMs + cfg.frameMs := by omega
      by_cases h2 : cfg.minMs ≤ s.bufferMs + cfg.frameMs ∧
          cfg.silenceThresholdMs ≤ (if cfg.volumeThreshold < v then 0 else s.silenceMs + cfg.frameMs)
      · simp only [ingest, if_neg h1, if_pos h2] at hseg
        rcases List.mem_cons.mp hseg with rfl | hmem
        · exact ⟨h2.1, show s.bufferMs + cfg.frameMs ≤ cfg.maxMs by omega, fun _ => h2.1⟩
        · exact ih { bufferMs := 0, silenceMs := 0 }
            (show (0 : Nat) < cfg.targetMs by omega) seg hmem
      · by_cases h3 : cfg.targetMs ≤ s.bufferMs + cfg.frameMs
        · simp only [ingest, if_neg h1, if_neg h2, if_pos h3] at hseg
          rcases List.mem_cons.mp hseg with rfl | hmem
          · exact ⟨show cfg.minMs ≤ s.bufferMs + cfg.frameMs by omega,
              show s.bufferMs + cfg.frameMs ≤ cfg.maxMs by omega,
              fun hr => by simp at hr⟩
          · exact ih { bufferMs := 0, silenceMs := 0 }
              (show (0 : Nat) < cfg.targetMs by omega) seg hmem
        · simp only [ingest, if_neg h1, if_neg h2, if_neg h3] at hseg
          exact ih _ (by simpa using Nat.lt_of_not_le h3) seg hseg

/-- Witness for C7: under the default configuration, five 1-second
frames of continuous speech emit a single 5-second segment (target
path), which satisfies the duration bounds. -/
theorem ingestAll_duration_bounds_witness :
    defaultSegConfig.minMs ≤ 5000 ∧ 5000 ≤ defaultSegConfig.maxMs ∧
    (ProcessReason.target_duration_reached = ProcessReason.silence_break_detected →
      defaultSegConfig.minMs ≤ 5000) :=
  ingestAll_duration_bounds defaultSegConfig (by decide) (by decide)
    [50, 50, 50, 50, 50] { bufferMs := 0, silenceMs := 0 } (by decide)
    { durMs := 5000, reason := ProcessReason.target_duration_reached } (by decide)

end SpeakTogether
